import Mathlib

/-!
Shallow embedding of the audio-processor crate (src/lib.rs, src/processing.rs,
src/errors.rs, src/transcoding.rs).

The crate is a façade over the external ffmpeg binary: each public operation
builds an argument vector, spawns ffmpeg, and classifies the termination.
We embed the pure command-construction layer directly (the argument vectors
and filter strings the Rust code formats), and model the process boundary by
an explicit `SpawnResult` parameter: whether the spawn succeeded and, if so,
whether the exit status was success — exactly the two pieces of information
the Rust code consumes (`Command::status()` and `ExitStatus::success()`).

Rust `f32` parameters are modelled as rationals; Rust's `Display` for `f32`
prints the shortest decimal that round-trips, which on the short decimal
literals appearing in this development coincides with the exact finite
decimal expansion of the denoted rational, produced by `decimalStr` below.
-/

/-- Rust `std::time::Duration`, represented by its total length in
nanoseconds (Rust stores seconds and sub-second nanoseconds; the total is
what the accessors below expose). A `Duration` is non-negative by
construction, as in Rust. -/
structure Duration where
  nanos : Nat
deriving DecidableEq, Repr

/-- Rust `Duration::as_secs`: whole seconds, sub-second part truncated. -/
def Duration.asSecs (d : Duration) : Nat :=
  d.nanos / 1000000000

/-- Rust `Duration::as_millis`: whole milliseconds. -/
def Duration.asMillis (d : Duration) : Nat :=
  d.nanos / 1000000

/-- Rust `Duration::as_secs_f32`, as the exact rational number of seconds
(nanoseconds divided by 10^9, built with `mkRat`). -/
def Duration.asSecsRat (d : Duration) : ℚ :=
  mkRat d.nanos 1000000000

/-- Exact finite decimal rendering of a rational: integer part, then a point
and the fractional digits (no trailing zeros), matching Rust `Display` for
floats that denote short finite decimals. Rationals with no finite decimal
expansion (never produced in this development) fall back to a fraction. -/
def decimalStr (q : ℚ) : String :=
  let sgn := if q < 0 then "-" else ""
  let n := q.num.natAbs
  let d := q.den
  match (List.range 40).find? (fun k => 10 ^ k % d == 0) with
  | some k =>
      let scaled := n * 10 ^ k / d
      let ip := scaled / 10 ^ k
      let fp := scaled % 10 ^ k
      if fp = 0 then sgn ++ toString ip
      else
        let fs := toString fp
        let pad := String.mk (List.replicate (k - fs.length) (Char.ofNat 48))
        sgn ++ toString ip ++ "." ++ pad ++ fs
  | none => sgn ++ toString n ++ "/" ++ toString d

/-- src/errors.rs: the crate's error enum. The payload of `IoError`
(`std::io::Error`) is opaque to the crate, so it is dropped here. -/
inductive AudioError where
  | IoError : AudioError
  | FfmpegError : String → AudioError
  | InvalidParameter : String → AudioError
deriving DecidableEq, Repr

/-- src/transcoding.rs: supported target formats. -/
inductive AudioFormat where
  | Mp3 | Wav | Flac | Ogg
deriving DecidableEq, Repr

/-- src/processing.rs: the effect enum. `decay` is an `f32` in Rust,
modelled as the rational it denotes. -/
inductive AudioEffect where
  | FadeIn : Duration → AudioEffect
  | FadeOut : Duration → AudioEffect
  | Echo : (delay : Duration) → (decay : ℚ) → AudioEffect
deriving DecidableEq, Repr

/-- src/processing.rs `effect_to_filter`: converts an effect into an ffmpeg
filter string. -/
def effect_to_filter : AudioEffect → String
  | .FadeIn dur => "afade=t=in:st=0:d=" ++ decimalStr dur.asSecsRat
  | .FadeOut dur => "afade=t=out:st=0:d=" ++ decimalStr dur.asSecsRat
  | .Echo delay decay =>
      "aecho=0.8:0.9:" ++ toString delay.asMillis ++ ":" ++ decimalStr decay

/-- Outcome of `Command::status()` as the Rust code observes it: the spawn
failed (binary missing, permission denied), or the child ran and its exit
status reports success or not (`ExitStatus::success()`; termination by a
signal reports not-success). -/
inductive SpawnResult where
  | spawned : Bool → SpawnResult
  | spawnFailed : SpawnResult
deriving DecidableEq, Repr

/-- src/lib.rs: the artifact handle — the current audio content lives at
`file_path`. -/
structure AudioProcessor where
  file_path : String
deriving DecidableEq, Repr

namespace AudioProcessor

/-- Argument vector built by `seek` (src/lib.rs line 35). -/
def seekArgs (p : AudioProcessor) (position : Duration) : List String :=
  ["-ss", toString position.asSecs, "-i", p.file_path,
   "-c", "copy", "seeked_" ++ p.file_path, "-y"]

/-- `AudioProcessor::seek` (src/lib.rs lines 30–44): builds `seekArgs`,
spawns ffmpeg, and classifies the termination. -/
def seek (p : AudioProcessor) (position : Duration) (r : SpawnResult) :
    Except AudioError AudioProcessor :=
  match r with
  | .spawnFailed => .error .IoError
  | .spawned true => .ok ⟨"seeked_" ++ p.file_path⟩
  | .spawned false => .error (.FfmpegError "ffmpeg seek failed")

/-- Argument vector built by `trim` (src/lib.rs line 54). -/
def trimArgs (p : AudioProcessor) (start finish : Duration) : List String :=
  ["-ss", toString start.asSecs, "-to", toString finish.asSecs,
   "-i", p.file_path, "-c", "copy", "trimmed_" ++ p.file_path, "-y"]

/-- `AudioProcessor::trim` (src/lib.rs lines 48–63). -/
def trim (p : AudioProcessor) (start finish : Duration) (r : SpawnResult) :
    Except AudioError AudioProcessor :=
  match r with
  | .spawnFailed => .error .IoError
  | .spawned true => .ok ⟨"trimmed_" ++ p.file_path⟩
  | .spawned false => .error (.FfmpegError "ffmpeg trim failed")

/-- Argument vector built by `transcode` (src/lib.rs line 69). -/
def transcodeArgs (p : AudioProcessor) (output_path : String) : List String :=
  ["-i", p.file_path, output_path, "-y"]

/-- `AudioProcessor::transcode` (src/lib.rs lines 66–78): note the success
value is the Rust unit `()`, not a new artifact. -/
def transcode (p : AudioProcessor) (output_format : AudioFormat)
    (output_path : String) (r : SpawnResult) : Except AudioError Unit :=
  match r with
  | .spawnFailed => .error .IoError
  | .spawned true => .ok ()
  | .spawned false => .error (.FfmpegError "ffmpeg transcode failed")

/-- Argument vector built by `adjust_volume` (src/lib.rs line 85). -/
def adjustVolumeArgs (p : AudioProcessor) (factor : ℚ) : List String :=
  ["-i", p.file_path, "-af", "volume=" ++ decimalStr factor,
   "volume_adjusted_" ++ p.file_path, "-y"]

/-- `AudioProcessor::adjust_volume` (src/lib.rs lines 81–94). -/
def adjust_volume (p : AudioProcessor) (factor : ℚ) (r : SpawnResult) :
    Except AudioError AudioProcessor :=
  match r with
  | .spawnFailed => .error .IoError
  | .spawned true => .ok ⟨"volume_adjusted_" ++ p.file_path⟩
  | .spawned false => .error (.FfmpegError "ffmpeg adjust volume failed")

/-- Argument vector built by `change_speed` (src/lib.rs lines 100–102):
always a single atempo fragment, whatever the factor. -/
def changeSpeedArgs (p : AudioProcessor) (factor : ℚ) : List String :=
  ["-i", p.file_path, "-filter:a", "atempo=" ++ decimalStr factor,
   "speed_changed_" ++ p.file_path, "-y"]

/-- `AudioProcessor::change_speed` (src/lib.rs lines 97–111). -/
def change_speed (p : AudioProcessor) (factor : ℚ) (r : SpawnResult) :
    Except AudioError AudioProcessor :=
  match r with
  | .spawnFailed => .error .IoError
  | .spawned true => .ok ⟨"speed_changed_" ++ p.file_path⟩
  | .spawned false => .error (.FfmpegError "ffmpeg change speed failed")

/-- Argument vector built by `apply_effect` (src/lib.rs line 119). -/
def applyEffectArgs (p : AudioProcessor) (effect : AudioEffect) : List String :=
  ["-i", p.file_path, "-af", effect_to_filter effect,
   "effected_" ++ p.file_path, "-y"]

/-- `AudioProcessor::apply_effect` (src/lib.rs lines 114–128). -/
def apply_effect (p : AudioProcessor) (effect : AudioEffect) (r : SpawnResult) :
    Except AudioError AudioProcessor :=
  match r with
  | .spawnFailed => .error .IoError
  | .spawned true => .ok ⟨"effected_" ++ p.file_path⟩
  | .spawned false => .error (.FfmpegError "ffmpeg apply effect failed")

/-- The single-quote character, used by the concat manifest lines. -/
def squote : String := String.singleton (Char.ofNat 39)

/-- Content of the temporary manifest file written by `merge_audios`
(src/lib.rs lines 137–142): one quoted `file` line per input. -/
def mergeManifest (audios : List AudioProcessor) : String :=
  String.join (audios.map (fun a => "file " ++ squote ++ a.file_path ++ squote ++ "\n"))

/-- Argument vector built by `merge_audios` (src/lib.rs line 145);
`manifestPath` is the OS-chosen temporary file path. -/
def mergeArgs (manifestPath output_path : String) : List String :=
  ["-f", "concat", "-safe", "0", "-i", manifestPath,
   "-c", "copy", output_path, "-y"]

/-- `AudioProcessor::merge_audios` (src/lib.rs lines 132–155). `manifestOk`
models whether creating/writing/flushing the temporary manifest succeeded
(each of those failures is mapped to `IoError` before ffmpeg is spawned). -/
def merge_audios (audios : List AudioProcessor) (manifestPath : String)
    (output_path : String) (manifestOk : Bool) (r : SpawnResult) :
    Except AudioError AudioProcessor :=
  if manifestOk then
    match r with
    | .spawnFailed => .error .IoError
    | .spawned true => .ok ⟨output_path⟩
    | .spawned false => .error (.FfmpegError "ffmpeg merge failed")
  else .error .IoError

/-- Argument vector built by `reverse` (src/lib.rs line 161). -/
def reverseArgs (p : AudioProcessor) : List String :=
  ["-i", p.file_path, "-af", "areverse", "reversed_" ++ p.file_path, "-y"]

/-- `AudioProcessor::reverse` (src/lib.rs lines 158–170). -/
def reverse (p : AudioProcessor) (r : SpawnResult) :
    Except AudioError AudioProcessor :=
  match r with
  | .spawnFailed => .error .IoError
  | .spawned true => .ok ⟨"reversed_" ++ p.file_path⟩
  | .spawned false => .error (.FfmpegError "ffmpeg reverse failed")

/-- Argument vector built by `normalize` (src/lib.rs line 177). -/
def normalizeArgs (p : AudioProcessor) : List String :=
  ["-i", p.file_path, "-af", "loudnorm", "normalized_" ++ p.file_path, "-y"]

/-- `AudioProcessor::normalize` (src/lib.rs lines 173–186). -/
def normalize (p : AudioProcessor) (r : SpawnResult) :
    Except AudioError AudioProcessor :=
  match r with
  | .spawnFailed => .error .IoError
  | .spawned true => .ok ⟨"normalized_" ++ p.file_path⟩
  | .spawned false => .error (.FfmpegError "ffmpeg normalize failed")

/-- The filter-complex string built by `overlay` (src/lib.rs lines 193–194):
delay all channels of input 1 by `start_time` in milliseconds under node
label d, then mix input 0 with d, duration policy first. -/
def overlayFilter (start_time : Duration) : String :=
  "[1]adelay=" ++ toString start_time.asMillis ++ "|" ++
    toString start_time.asMillis ++ "|" ++ toString start_time.asMillis ++
    "[d]; [0][d]amix=inputs=2:duration=first"

/-- Argument vector built by `overlay` (src/lib.rs line 196). -/
def overlayArgs (p overlay_audio : AudioProcessor) (start_time : Duration) :
    List String :=
  ["-i", p.file_path, "-i", overlay_audio.file_path,
   "-filter_complex", overlayFilter start_time,
   "overlayed_" ++ p.file_path, "-y"]

/-- `AudioProcessor::overlay` (src/lib.rs lines 189–205). -/
def overlay (p overlay_audio : AudioProcessor) (start_time : Duration)
    (r : SpawnResult) : Except AudioError AudioProcessor :=
  match r with
  | .spawnFailed => .error .IoError
  | .spawned true => .ok ⟨"overlayed_" ++ p.file_path⟩
  | .spawned false => .error (.FfmpegError "ffmpeg overlay failed")

end AudioProcessor

/-- Token `a` occurs strictly before token `b` in the argument list. -/
def flagBeforeTok (a b : String) (l : List String) : Prop :=
  ∃ l1 l2 l3, l = l1 ++ a :: (l2 ++ b :: l3)

/-- The argument list selects stream-copy mode: it contains the adjacent
tokens -c copy. -/
def usesStreamCopy (l : List String) : Prop :=
  ∃ l1 l2, l = l1 ++ "-c" :: "copy" :: l2

/-- A nonempty string prepended to a string changes it. -/
theorem prepend_ne (pre s : String) (h : 0 < pre.length) : pre ++ s ≠ s := by
  intro heq
  have hlen := congrArg String.length heq
  rw [String.length_append] at hlen
  omega

/-- C1: evaluating the trim builder at trim(1s, 4s): the seek-start flag and
its whole-second value "1" precede the input token, stream copy is used, and
the end value is the whole-second "4" — but the end-timestamp flag -to is
placed BEFORE the input token -i (src/lib.rs line 54), not after it as the
claim and the code's own comment on line 52 state. -/
theorem trim_descriptor_places_end_before_input :
    AudioProcessor.trimArgs ⟨"silence.wav"⟩ ⟨1000000000⟩ ⟨4000000000⟩ =
      ["-ss", "1", "-to", "4", "-i", "silence.wav", "-c", "copy",
       "trimmed_silence.wav", "-y"] ∧
    flagBeforeTok "-to" "-i"
      (AudioProcessor.trimArgs ⟨"silence.wav"⟩ ⟨1000000000⟩ ⟨4000000000⟩) :=
  ⟨rfl, ⟨["-ss", "1"], ["4"],
    ["silence.wav", "-c", "copy", "trimmed_silence.wav", "-y"], rfl⟩⟩

/-- C2: the code performs no domain validation: trim with start > end,
a negative speed factor, a zero gain factor, and an empty merge list never
produce `InvalidParameter` (that error constructor is never built anywhere
in the crate); trim(4s, 1s) with a zero exit status even succeeds. -/
theorem no_invalid_parameter_validation (r : SpawnResult) (msg : String)
    (mOk : Bool) :
    AudioProcessor.trim ⟨"f.wav"⟩ ⟨4000000000⟩ ⟨1000000000⟩ r ≠
      .error (.InvalidParameter msg) ∧
    AudioProcessor.trim ⟨"f.wav"⟩ ⟨4000000000⟩ ⟨1000000000⟩ (.spawned true) =
      .ok ⟨"trimmed_f.wav"⟩ ∧
    AudioProcessor.change_speed ⟨"f.wav"⟩ (-1) r ≠
      .error (.InvalidParameter msg) ∧
    AudioProcessor.adjust_volume ⟨"f.wav"⟩ 0 r ≠
      .error (.InvalidParameter msg) ∧
    AudioProcessor.merge_audios [] "list.txt" "m.wav" mOk r ≠
      .error (.InvalidParameter msg) := by
  refine ⟨?_, rfl, ?_, ?_, ?_⟩ <;>
  · cases r with
    | spawned ok =>
        cases ok <;> cases mOk <;>
          simp [AudioProcessor.trim, AudioProcessor.change_speed,
                AudioProcessor.adjust_volume, AudioProcessor.merge_audios]
    | spawnFailed =>
        cases mOk <;>
          simp [AudioProcessor.trim, AudioProcessor.change_speed,
                AudioProcessor.adjust_volume, AudioProcessor.merge_audios]

/-- C3: for factor 3.0, outside the native range, the code still builds a
single atempo fragment "atempo=3" rather than a chain of fragments whose
values multiply to 3 — contradicting the code's own comment on
src/lib.rs line 99. -/
theorem change_speed_single_stage_always :
    AudioProcessor.changeSpeedArgs ⟨"f.wav"⟩ 3 =
      ["-i", "f.wav", "-filter:a", "atempo=3", "speed_changed_f.wav", "-y"] := by
  decide

/-- C4: the Echo fragment is "aecho=0.8:0.9:" followed by the delay in whole
milliseconds and the decay, colon-joined; at delay 500ms, decay 0.5 it is
exactly "aecho=0.8:0.9:500:0.5". -/
theorem echo_filter_fragment (d : Duration) (c : ℚ) :
    effect_to_filter (.Echo d c) =
      "aecho=0.8:0.9:" ++ toString d.asMillis ++ ":" ++ decimalStr c ∧
    effect_to_filter (.Echo ⟨500000000⟩ (mkRat 1 2)) =
      "aecho=0.8:0.9:500:0.5" :=
  ⟨rfl, by decide⟩

/-- C5: FadeOut(2s) produces "afade=t=out:st=0:d=2": the start offset is
hardcoded to 0 (src/processing.rs line 22), not total clip duration minus
the fade duration as the claim states. -/
theorem fadeout_start_offset_hardcoded_zero :
    effect_to_filter (.FadeOut ⟨2000000000⟩) = "afade=t=out:st=0:d=2" := by
  decide

/-- C6: for every artifact and position, the seek descriptor places -ss
before -i and uses stream copy, and a successful invocation returns a new
artifact at "seeked_" prefixed onto the source location, which differs from
the source location. -/
theorem seek_descriptor_and_artifact (p : AudioProcessor) (position : Duration) :
    flagBeforeTok "-ss" "-i" (p.seekArgs position) ∧
    usesStreamCopy (p.seekArgs position) ∧
    p.seek position (.spawned true) = .ok ⟨"seeked_" ++ p.file_path⟩ ∧
    "seeked_" ++ p.file_path ≠ p.file_path :=
  ⟨⟨[], [toString position.asSecs],
    [p.file_path, "-c", "copy", "seeked_" ++ p.file_path, "-y"], rfl⟩,
   ⟨["-ss", toString position.asSecs, "-i", p.file_path],
    ["seeked_" ++ p.file_path, "-y"], rfl⟩,
   rfl,
   prepend_ne "seeked_" p.file_path (by decide)⟩

/-- C7: for every operation, a spawn failure is classified as `IoError`, a
successful exit as `Ok` carrying the declared output location (unit for
transcode), and a non-success exit (nonzero or signal) as `FfmpegError`
carrying the operation's fixed diagnostic label; the spawn-failure kind is
distinct from the failing-exit kind. -/
theorem invocation_outcome_classification (p o : AudioProcessor)
    (position start finish start_time : Duration) (fmt : AudioFormat)
    (out mp msg : String) (factor : ℚ) (eff : AudioEffect)
    (audios : List AudioProcessor) (r : SpawnResult) :
    (p.seek position .spawnFailed = .error .IoError ∧
     p.seek position (.spawned true) = .ok ⟨"seeked_" ++ p.file_path⟩ ∧
     p.seek position (.spawned false) =
       .error (.FfmpegError "ffmpeg seek failed")) ∧
    (p.trim start finish .spawnFailed = .error .IoError ∧
     p.trim start finish (.spawned true) = .ok ⟨"trimmed_" ++ p.file_path⟩ ∧
     p.trim start finish (.spawned false) =
       .error (.FfmpegError "ffmpeg trim failed")) ∧
    (p.transcode fmt out .spawnFailed = .error .IoError ∧
     p.transcode fmt out (.spawned true) = .ok () ∧
     p.transcode fmt out (.spawned false) =
       .error (.FfmpegError "ffmpeg transcode failed")) ∧
    (p.adjust_volume factor .spawnFailed = .error .IoError ∧
     p.adjust_volume factor (.spawned true) =
       .ok ⟨"volume_adjusted_" ++ p.file_path⟩ ∧
     p.adjust_volume factor (.spawned false) =
       .error (.FfmpegError "ffmpeg adjust volume failed")) ∧
    (p.change_speed factor .spawnFailed = .error .IoError ∧
     p.change_speed factor (.spawned true) =
       .ok ⟨"speed_changed_" ++ p.file_path⟩ ∧
     p.change_speed factor (.spawned false) =
       .error (.FfmpegError "ffmpeg change speed failed")) ∧
    (p.apply_effect eff .spawnFailed = .error .IoError ∧
     p.apply_effect eff (.spawned true) = .ok ⟨"effected_" ++ p.file_path⟩ ∧
     p.apply_effect eff (.spawned false) =
       .error (.FfmpegError "ffmpeg apply effect failed")) ∧
    (AudioProcessor.merge_audios audios mp out true .spawnFailed =
       .error .IoError ∧
     AudioProcessor.merge_audios audios mp out true (.spawned true) =
       .ok ⟨out⟩ ∧
     AudioProcessor.merge_audios audios mp out true (.spawned false) =
       .error (.FfmpegError "ffmpeg merge failed") ∧
     AudioProcessor.merge_audios audios mp out false r = .error .IoError) ∧
    (p.reverse .spawnFailed = .error .IoError ∧
     p.reverse (.spawned true) = .ok ⟨"reversed_" ++ p.file_path⟩ ∧
     p.reverse (.spawned false) =
       .error (.FfmpegError "ffmpeg reverse failed")) ∧
    (p.normalize .spawnFailed = .error .IoError ∧
     p.normalize (.spawned true) = .ok ⟨"normalized_" ++ p.file_path⟩ ∧
     p.normalize (.spawned false) =
       .error (.FfmpegError "ffmpeg normalize failed")) ∧
    (p.overlay o start_time .spawnFailed = .error .IoError ∧
     p.overlay o start_time (.spawned true) =
       .ok ⟨"overlayed_" ++ p.file_path⟩ ∧
     p.overlay o start_time (.spawned false) =
       .error (.FfmpegError "ffmpeg overlay failed")) ∧
    AudioError.IoError ≠ AudioError.FfmpegError msg :=
  ⟨⟨rfl, rfl, rfl⟩, ⟨rfl, rfl, rfl⟩, ⟨rfl, rfl, rfl⟩, ⟨rfl, rfl, rfl⟩,
   ⟨rfl, rfl, rfl⟩, ⟨rfl, rfl, rfl⟩, ⟨rfl, rfl, rfl, rfl⟩, ⟨rfl, rfl, rfl⟩,
   ⟨rfl, rfl, rfl⟩, ⟨rfl, rfl, rfl⟩, fun h => AudioError.noConfusion h⟩

/-- C8 counterexample: transcode, on a zero exit status, returns the Rust
unit value, not a new Artifact — its success carries no location. -/
theorem transcode_success_carries_unit :
    AudioProcessor.transcode ⟨"input.wav"⟩ .Mp3 "output.mp3" (.spawned true) =
      .ok () := rfl

/-- C8 (amended): every operation is pure over its receiver, and on success
every operation except transcode returns a new artifact value — with a
prefix-derived location distinct from the receiver's for the single-input
operations, and the caller-supplied output path for merge; transcode
returns unit. -/
theorem operations_pure_and_derive_new_artifacts (p o : AudioProcessor)
    (position start finish start_time : Duration) (fmt : AudioFormat)
    (out mp : String) (factor : ℚ) (eff : AudioEffect)
    (audios : List AudioProcessor) :
    p.seek position (.spawned true) = .ok ⟨"seeked_" ++ p.file_path⟩ ∧
    "seeked_" ++ p.file_path ≠ p.file_path ∧
    p.trim start finish (.spawned true) = .ok ⟨"trimmed_" ++ p.file_path⟩ ∧
    "trimmed_" ++ p.file_path ≠ p.file_path ∧
    p.adjust_volume factor (.spawned true) =
      .ok ⟨"volume_adjusted_" ++ p.file_path⟩ ∧
    "volume_adjusted_" ++ p.file_path ≠ p.file_path ∧
    p.change_speed factor (.spawned true) =
      .ok ⟨"speed_changed_" ++ p.file_path⟩ ∧
    "speed_changed_" ++ p.file_path ≠ p.file_path ∧
    p.apply_effect eff (.spawned true) = .ok ⟨"effected_" ++ p.file_path⟩ ∧
    "effected_" ++ p.file_path ≠ p.file_path ∧
    p.reverse (.spawned true) = .ok ⟨"reversed_" ++ p.file_path⟩ ∧
    "reversed_" ++ p.file_path ≠ p.file_path ∧
    p.normalize (.spawned true) = .ok ⟨"normalized_" ++ p.file_path⟩ ∧
    "normalized_" ++ p.file_path ≠ p.file_path ∧
    p.overlay o start_time (.spawned true) =
      .ok ⟨"overlayed_" ++ p.file_path⟩ ∧
    "overlayed_" ++ p.file_path ≠ p.file_path ∧
    p.transcode fmt out (.spawned true) = .ok () ∧
    AudioProcessor.merge_audios audios mp out true (.spawned true) =
      .ok ⟨out⟩ :=
  ⟨rfl, prepend_ne "seeked_" p.file_path (by decide),
   rfl, prepend_ne "trimmed_" p.file_path (by decide),
   rfl, prepend_ne "volume_adjusted_" p.file_path (by decide),
   rfl, prepend_ne "speed_changed_" p.file_path (by decide),
   rfl, prepend_ne "effected_" p.file_path (by decide),
   rfl, prepend_ne "reversed_" p.file_path (by decide),
   rfl, prepend_ne "normalized_" p.file_path (by decide),
   rfl, prepend_ne "overlayed_" p.file_path (by decide),
   rfl, rfl⟩

/-- C9: the overlay descriptor has exactly the two inputs in fixed order
(primary, then secondary), then the filter-graph flag carrying the
two-stage fragment — delay input 1's channels by the start offset in
milliseconds under node label d, then amix with input 0 under duration
policy first — and the output token after the filter flag; one second
converts to 1000 milliseconds. -/
theorem overlay_descriptor_structure (p o : AudioProcessor)
    (start_time : Duration) :
    AudioProcessor.overlayArgs p o start_time =
      ["-i", p.file_path] ++ ["-i", o.file_path] ++
        ["-filter_complex", AudioProcessor.overlayFilter start_time] ++
        ["overlayed_" ++ p.file_path, "-y"] ∧
    AudioProcessor.overlayFilter start_time =
      "[1]adelay=" ++ toString start_time.asMillis ++ "|" ++
        toString start_time.asMillis ++ "|" ++ toString start_time.asMillis ++
        "[d]; [0][d]amix=inputs=2:duration=first" ∧
    flagBeforeTok "-filter_complex" ("overlayed_" ++ p.file_path)
      (AudioProcessor.overlayArgs p o start_time) ∧
    Duration.asMillis ⟨1000000000⟩ = 1000 :=
  ⟨rfl, rfl,
   ⟨["-i", p.file_path, "-i", o.file_path],
    [AudioProcessor.overlayFilter start_time], ["-y"], rfl⟩,
   rfl⟩

/-- C10: seek and trim place only the truncated whole-second value in the
argument vector: positions agreeing on whole seconds build identical
argument vectors, and the value tokens are the `Duration.asSecs`
truncations. -/
theorem subsecond_truncation (p : AudioProcessor)
    (position position2 s1 e1 s2 e2 : Duration)
    (h1 : position.asSecs = position2.asSecs)
    (h2 : s1.asSecs = s2.asSecs) (h3 : e1.asSecs = e2.asSecs) :
    p.seekArgs position = p.seekArgs position2 ∧
    p.trimArgs s1 e1 = p.trimArgs s2 e2 ∧
    (p.seekArgs position)[1]? = some (toString position.asSecs) ∧
    (p.trimArgs s1 e1)[3]? = some (toString e1.asSecs) := by
  unfold AudioProcessor.seekArgs AudioProcessor.trimArgs
  rw [h1, h2, h3]
  exact ⟨rfl, rfl, rfl, rfl⟩

/-- C10 witness: a 1.9-second seek builds the same vector as a 1-second
seek, with value token "1"; trim(1.9s, 4.5s) builds the same vector as
trim(1s, 4s), with end token "4". -/
theorem subsecond_truncation_witness :
    AudioProcessor.seekArgs ⟨"f.wav"⟩ ⟨1900000000⟩ =
      AudioProcessor.seekArgs ⟨"f.wav"⟩ ⟨1000000000⟩ ∧
    AudioProcessor.trimArgs ⟨"f.wav"⟩ ⟨1900000000⟩ ⟨4500000000⟩ =
      AudioProcessor.trimArgs ⟨"f.wav"⟩ ⟨1000000000⟩ ⟨4000000000⟩ ∧
    (AudioProcessor.seekArgs ⟨"f.wav"⟩ ⟨1900000000⟩)[1]? = some "1" ∧
    (AudioProcessor.trimArgs ⟨"f.wav"⟩ ⟨1900000000⟩ ⟨4500000000⟩)[3]? =
      some "4" :=
  subsecond_truncation ⟨"f.wav"⟩ ⟨1900000000⟩ ⟨1000000000⟩ ⟨1900000000⟩
    ⟨4500000000⟩ ⟨1000000000⟩ ⟨4000000000⟩ rfl rfl rfl
